import Mathlib

/-!
Shallow embedding of the telemetry acquisition state machine of the
ESP32 OBD-II OLED reader (function obdTask of the state-machine variant of
ESP32_OBDII_OLED.ino) together with the instantaneous-efficiency
computation of the presentation loop (mode 1 of the same variant, and the
unrounded 90-clamped variant of the simulation file).

Embedding conventions: C floating point values (float_t, float, double)
are modelled by exact rationals; the uint32 millis() clock and the uint32
moving-time accumulator are modelled by natural numbers with the uint32
wrap made explicit as arithmetic modulo 2^32.  One iteration of the
obdTask outer for-loop is one application of the transition function
obdStep; the query outcome and the millis() tick observed during that
iteration are the components of the driving event.
-/

namespace OBDII

/-- The polling phases of the obdTask state machine (the C enum ObdState:
OBD_STATE_KPH, OBD_STATE_MAF, OBD_STATE_RPM, OBD_STATE_LOAD,
OBD_STATE_FUEL, OBD_STATE_DTC). -/
inductive ObdPhase where
  | kph
  | maf
  | rpm
  | load
  | fuel
  | dtc
deriving DecidableEq

/-- Outcome of one non-blocking ELM327 query: ELM_SUCCESS carrying the
parsed reading, ELM_GETTING_MSG (still waiting), or any other nb_rx_state
(a hard failure). -/
inductive PollResult where
  | success (value : ℚ)
  | pending
  | failure
deriving DecidableEq

/-- One iteration of the obdTask outer loop: either the transport link is
up and the query of the current phase resolves as r at millis() tick now, or
the link is reported down (the reconnection-handling branch runs), or the
display task writes the mode selector into global_mode under the mutex. -/
inductive ObdEvent where
  | linkUp (r : PollResult) (now : Nat)
  | linkDown
  | setMode (m : Int)
deriving DecidableEq

/-- The state of obdTask: its function-static variables together with the
mutex-protected globals it publishes.  Field names follow the C source. -/
structure ObdState where
  currentState : ObdPhase
  lastSuccessfulMpgPollTime : Nat
  temp_kph : ℚ
  prev_kph : ℚ
  prev_maf : ℚ
  lastSpeedTime : Nat
  lastFuelTime : Nat
  global_vss_kph : ℚ
  global_maf : ℚ
  global_rpm : ℚ
  global_load : ℚ
  global_fuel : ℚ
  global_totalDistanceTraveled : ℚ
  global_totalDistanceTraveledTimer : Nat
  global_totalFuelConsumed : ℚ
  global_lastDataUpdate : Nat
  global_mode : Int
deriving DecidableEq

/-- The initial state: C initializers of the statics and of the globals
(readings start at the invalid sentinel -1, totals at zero, mode 1,
phase OBD_STATE_KPH). -/
def initialObdState : ObdState where
  currentState := .kph
  lastSuccessfulMpgPollTime := 0
  temp_kph := 0
  prev_kph := 0
  prev_maf := 0
  lastSpeedTime := 0
  lastFuelTime := 0
  global_vss_kph := -1
  global_maf := -1
  global_rpm := -1
  global_load := -1
  global_fuel := -1
  global_totalDistanceTraveled := 0
  global_totalDistanceTraveledTimer := 0
  global_totalFuelConsumed := 0
  global_lastDataUpdate := 0
  global_mode := 1

/-- 2^32, the modulus of the uint32 clock and timer arithmetic. -/
def u32 : Nat := 4294967296

/-- uint32 subtraction (the value of the C expression now - earlier on
uint32 operands, wrapping modulo 2^32). -/
def u32sub (a b : Nat) : Nat := (a + u32 - b % u32) % u32

/-- Effect of the OBD_STATE_KPH case of obdTask when the speed query
returns ELM_SUCCESS with the given value at millis() tick now: the
trapezoidal distance delta is computed against prev_kph when
lastSpeedTime is nonzero (the first-loop sentinel), the moving-time
accumulator advances by the elapsed milliseconds when the current speed
is positive, the previous-sample cache and the published fields are
updated, and the machine moves to OBD_STATE_MAF. -/
def kphSuccessStep (s : ObdState) (value : ℚ) (now : Nat) : ObdState :=
  let temp_kph := value
  let time_delta_ms : Nat :=
    if 0 < s.lastSpeedTime then u32sub now s.lastSpeedTime else 0
  let dist_delta : ℚ :=
    if 0 < s.lastSpeedTime then
      let time_hours : ℚ := (time_delta_ms : ℚ) / 3600000
      if 0 < temp_kph ∨ 0 < s.prev_kph then
        ((temp_kph + s.prev_kph) / 2) * time_hours
      else 0
    else 0
  { s with
    temp_kph := temp_kph
    lastSpeedTime := now
    prev_kph := temp_kph
    global_vss_kph := temp_kph
    global_totalDistanceTraveled := s.global_totalDistanceTraveled + dist_delta
    global_totalDistanceTraveledTimer :=
      if 0 < temp_kph then
        (s.global_totalDistanceTraveledTimer + time_delta_ms) % u32
      else s.global_totalDistanceTraveledTimer
    global_lastDataUpdate := now
    currentState := .maf }

/-- Effect of the OBD_STATE_MAF case of obdTask when the MAF query returns
ELM_SUCCESS with the given value at millis() tick now: the trapezoidal
average of the current and previous MAF samples is converted to a fuel
rate with the stoichiometric constant 0.33094 (the exact rational
33094/100000) and integrated over the elapsed hours when lastFuelTime is
nonzero, the caches and published fields are updated, and the next phase
is selected from global_mode (4 polls the gauges, 6 the diagnostic codes,
anything else returns to the speed poll). -/
def mafSuccessStep (s : ObdState) (value : ℚ) (now : Nat) : ObdState :=
  let temp_maf := value
  let fuel_delta : ℚ :=
    if 0 < s.lastFuelTime then
      let time_hours : ℚ := ((u32sub now s.lastFuelTime : Nat) : ℚ) / 3600000
      if 0 < temp_maf ∨ 0 < s.prev_maf then
        (((temp_maf + s.prev_maf) / 2) * (33094 / 100000)) * time_hours
      else 0
    else 0
  { s with
    lastFuelTime := now
    prev_maf := temp_maf
    global_maf := temp_maf
    global_totalFuelConsumed := s.global_totalFuelConsumed + fuel_delta
    global_lastDataUpdate := now
    currentState :=
      if s.global_mode = 4 then .rpm
      else if s.global_mode = 6 then .dtc
      else .kph }

/-- One iteration of the obdTask loop body as a transition function.
The linkDown branch models the state effects of the reconnection handler:
the published speed is set to the invalid sentinel -1 and the (vestigial,
never read by this state machine) lastSuccessfulMpgPollTime is zeroed,
while every other static and global is left untouched.  A pending
(ELM_GETTING_MSG) result changes nothing in any phase; a hard failure of
the speed query keeps the phase at OBD_STATE_KPH, a hard failure of the
MAF query forces the phase back to OBD_STATE_KPH, and failures of the
secondary polls advance to the next phase in sequence exactly as the
success path does.  OBD_STATE_DTC has an empty body. -/
def obdStep (s : ObdState) (e : ObdEvent) : ObdState :=
  match e with
  | .setMode m => { s with global_mode := m }
  | .linkDown =>
      { s with global_vss_kph := -1, lastSuccessfulMpgPollTime := 0 }
  | .linkUp r now =>
      match s.currentState, r with
      | .kph, .success v => kphSuccessStep s v now
      | .kph, .pending => s
      | .kph, .failure => s
      | .maf, .success v => mafSuccessStep s v now
      | .maf, .pending => s
      | .maf, .failure => { s with currentState := .kph }
      | .rpm, .success v =>
          { s with global_rpm := v, global_lastDataUpdate := now,
                   currentState := .load }
      | .rpm, .pending => s
      | .rpm, .failure => { s with currentState := .load }
      | .load, .success v =>
          { s with global_load := v, global_lastDataUpdate := now,
                   currentState := .fuel }
      | .load, .pending => s
      | .load, .failure => { s with currentState := .fuel }
      | .fuel, .success v =>
          { s with global_fuel := v, global_lastDataUpdate := now,
                   currentState := .kph }
      | .fuel, .pending => s
      | .fuel, .failure => { s with currentState := .kph }
      | .dtc, _ => s

/-- Running obdTask from the initial state over a list of events. -/
def obdRun (es : List ObdEvent) : ObdState :=
  es.foldl obdStep initialObdState

/-- An event carries a non-negative sensor reading (physical speed and
mass-air-flow readings are non-negative; events that carry no reading
impose no condition). -/
def EventNonneg : ObdEvent → Prop
  | .linkUp (.success v) _ => 0 ≤ v
  | _ => True

instance : DecidablePred EventNonneg := fun e => by
  cases e with
  | linkUp r now =>
      cases r with
      | success v => exact inferInstanceAs (Decidable (0 ≤ v))
      | pending => exact isTrue trivial
      | failure => exact isTrue trivial
  | linkDown => exact isTrue trivial
  | setMode m => exact isTrue trivial

/-- The instantaneous-efficiency formula of the presentation loop:
(14.7 * 6.17 * 4.54 * kph * 0.621371) / (3600 * maf / 100), the C decimal
literals taken as exact rationals. -/
def instMpgFormula (kph maf : ℚ) : ℚ :=
  ((147 / 10) * (617 / 100) * (454 / 100) * kph * (621371 / 1000000)) /
    (3600 * maf / 100)

/-- inst_mpg as computed by mode 1 of the state-machine variant loop:
zero unless speed > 0 and MAF > 0, otherwise the rounded formula clamped
to the configured maximum 99. -/
def instMpg99 (kph maf : ℚ) : ℚ :=
  if 0 < kph ∧ 0 < maf then
    let r : ℚ := (round (instMpgFormula kph maf) : ℤ)
    if 99 < r then 99 else r
  else 0

/-- inst_mpg as computed by the simulation-variant loop: zero unless
speed > 0 and MAF > 0, otherwise the unrounded formula clamped to the
configured maximum 90 (the displayed integer is its rounding). -/
def instMpg90 (kph maf : ℚ) : ℚ :=
  if 0 < kph ∧ 0 < maf then
    let v := instMpgFormula kph maf
    if 90 < v then 90 else v
  else 0

/-- uint32 subtraction coincides with natural subtraction when the
minuend is a uint32 value at least as large as the subtrahend. -/
theorem u32sub_of_le (a b : Nat) (hba : b ≤ a) (ha : a < u32) : u32sub a b = a - b := by
  unfold u32sub u32 at *
  omega

/-- No single obdTask step decreases either cumulative total, provided the
event carries a non-negative reading and the previous-sample caches are
non-negative. -/
theorem step_totals_le (s : ObdState) (e : ObdEvent) (he : EventNonneg e)
    (h1 : 0 ≤ s.prev_kph) (h2 : 0 ≤ s.prev_maf) :
    s.global_totalDistanceTraveled ≤ (obdStep s e).global_totalDistanceTraveled ∧
    s.global_totalFuelConsumed ≤ (obdStep s e).global_totalFuelConsumed := by
  rcases e with ⟨r, now⟩ | _ | m
  rotate_left
  · exact ⟨le_rfl, le_rfl⟩
  · exact ⟨le_rfl, le_rfl⟩
  rcases s with ⟨cs, mpgT, tk, pk, pm, lst, lft, gv, gm, gr, gl, gf, gd, gt, gfc, glu, gmd⟩
  rcases r with v | _ | _
  rotate_left
  · cases cs <;> exact ⟨le_rfl, le_rfl⟩
  · cases cs <;> exact ⟨le_rfl, le_rfl⟩
  have hv : 0 ≤ v := he
  cases cs
  case kph =>
    simp only [obdStep, kphSuccessStep]
    refine ⟨le_add_of_nonneg_right ?_, le_rfl⟩
    split_ifs with hT hG
    · exact mul_nonneg (div_nonneg (add_nonneg hv h1) (by norm_num))
        (div_nonneg (Nat.cast_nonneg _) (by norm_num))
    · exact le_rfl
    · exact le_rfl
  case maf =>
    simp only [obdStep, mafSuccessStep]
    refine ⟨le_rfl, le_add_of_nonneg_right ?_⟩
    split_ifs with hT hG
    · exact mul_nonneg
        (mul_nonneg (div_nonneg (add_nonneg hv h2) (by norm_num)) (by norm_num))
        (div_nonneg (Nat.cast_nonneg _) (by norm_num))
    · exact le_rfl
    · exact le_rfl
  case rpm => exact ⟨le_rfl, le_rfl⟩
  case load => exact ⟨le_rfl, le_rfl⟩
  case fuel => exact ⟨le_rfl, le_rfl⟩
  case dtc => exact ⟨le_rfl, le_rfl⟩

/-- Non-negativity of the previous-sample caches is preserved by every
step driven by an event with a non-negative reading. -/
theorem step_inv (s : ObdState) (e : ObdEvent) (he : EventNonneg e)
    (h1 : 0 ≤ s.prev_kph) (h2 : 0 ≤ s.prev_maf) :
    0 ≤ (obdStep s e).prev_kph ∧ 0 ≤ (obdStep s e).prev_maf := by
  rcases e with ⟨r, now⟩ | _ | m
  rotate_left
  · exact ⟨h1, h2⟩
  · exact ⟨h1, h2⟩
  rcases s with ⟨cs, mpgT, tk, pk, pm, lst, lft, gv, gm, gr, gl, gf, gd, gt, gfc, glu, gmd⟩
  rcases r with v | _ | _
  rotate_left
  · cases cs <;> exact ⟨h1, h2⟩
  · cases cs <;> exact ⟨h1, h2⟩
  have hv : 0 ≤ v := he
  cases cs
  case kph => exact ⟨hv, h2⟩
  case maf => exact ⟨h1, hv⟩
  case rpm => exact ⟨h1, h2⟩
  case load => exact ⟨h1, h2⟩
  case fuel => exact ⟨h1, h2⟩
  case dtc => exact ⟨h1, h2⟩

/-- Folding obdStep over any list of events with non-negative readings
never decreases either cumulative total. -/
theorem foldl_totals_le (tail : List ObdEvent) :
    ∀ s : ObdState, (∀ e ∈ tail, EventNonneg e) → 0 ≤ s.prev_kph → 0 ≤ s.prev_maf →
      s.global_totalDistanceTraveled ≤
        (List.foldl obdStep s tail).global_totalDistanceTraveled ∧
      s.global_totalFuelConsumed ≤
        (List.foldl obdStep s tail).global_totalFuelConsumed := by
  induction tail with
  | nil => intro s _ _ _; exact ⟨le_rfl, le_rfl⟩
  | cons e es ih =>
      intro s hval h1 h2
      have hee : EventNonneg e := hval e (List.mem_cons_self e es)
      have hstep := step_totals_le s e hee h1 h2
      have hinv := step_inv s e hee h1 h2
      have hrest := ih (obdStep s e)
        (fun x hx => hval x (List.mem_cons_of_mem e hx)) hinv.1 hinv.2
      rw [List.foldl_cons]
      exact ⟨le_trans hstep.1 hrest.1, le_trans hstep.2 hrest.2⟩

/-- Folding obdStep preserves non-negativity of the previous-sample
caches. -/
theorem foldl_inv (es : List ObdEvent) :
    ∀ s : ObdState, (∀ e ∈ es, EventNonneg e) → 0 ≤ s.prev_kph → 0 ≤ s.prev_maf →
      0 ≤ (List.foldl obdStep s es).prev_kph ∧
      0 ≤ (List.foldl obdStep s es).prev_maf := by
  induction es with
  | nil => intro s _ h1 h2; exact ⟨h1, h2⟩
  | cons e es ih =>
      intro s hval h1 h2
      have hee : EventNonneg e := hval e (List.mem_cons_self e es)
      have hinv := step_inv s e hee h1 h2
      rw [List.foldl_cons]
      exact ih (obdStep s e) (fun x hx => hval x (List.mem_cons_of_mem e hx)) hinv.1 hinv.2

/-- Claim C3 (confirmed): along any run of the acquisition loop driven by
any sequence of poll outcomes (success, pending, failure, link loss, mode
writes) whose sensor readings are non-negative, the cumulative distance
total and the cumulative fuel total are monotonically non-decreasing:
extending the event sequence never decreases either total. -/
theorem totalsMonotone (es tail : List ObdEvent)
    (h : ∀ e ∈ es ++ tail, EventNonneg e) :
    (obdRun es).global_totalDistanceTraveled ≤
      (obdRun (es ++ tail)).global_totalDistanceTraveled ∧
    (obdRun es).global_totalFuelConsumed ≤
      (obdRun (es ++ tail)).global_totalFuelConsumed := by
  have hes : ∀ e ∈ es, EventNonneg e :=
    fun e he => h e (List.mem_append_left tail he)
  have htail : ∀ e ∈ tail, EventNonneg e :=
    fun e he => h e (List.mem_append_right es he)
  have hinv := foldl_inv es initialObdState hes le_rfl le_rfl
  have hmono := foldl_totals_le tail (obdRun es) htail hinv.1 hinv.2
  simp only [obdRun, List.foldl_append]
  exact hmono

/-- Witness for totalsMonotone: a concrete three-poll run (a successful
speed poll, a hard MAF failure, a second successful speed poll) satisfies
the non-negativity hypothesis and its totals are non-decreasing. -/
theorem totalsMonotoneWitness :
    (∀ e ∈ ([ObdEvent.linkUp (.success 80) 1000] ++
        [ObdEvent.linkUp .failure 2000, ObdEvent.linkUp (.success 100) 3601000]),
      EventNonneg e) ∧
    (obdRun [ObdEvent.linkUp (.success 80) 1000]).global_totalDistanceTraveled ≤
      (obdRun ([ObdEvent.linkUp (.success 80) 1000] ++
        [ObdEvent.linkUp .failure 2000,
         ObdEvent.linkUp (.success 100) 3601000])).global_totalDistanceTraveled := by
  have hval : ∀ e ∈ ([ObdEvent.linkUp (.success 80) 1000] ++
      [ObdEvent.linkUp .failure 2000, ObdEvent.linkUp (.success 100) 3601000]),
      EventNonneg e := by
    intro e he
    fin_cases he <;> norm_num [EventNonneg]
  exact ⟨hval, (totalsMonotone _ _ hval).1⟩

/-- Claim C1 counterexample: with the previous valid speed sample (80 kph)
recorded at millis() tick 0 and the current sample (100 kph) arriving at
tick 3600000, the current poll is not the first valid sample since reset
(the 80 kph sample preceded it), yet the code adds a distance delta of 0
rather than the 90 km the trapezoidal formula demands: a previous-sample
timestamp of 0 collides with the first-loop sentinel lastSpeedTime == 0,
so the delta computation is skipped.  The intervening event is the hard
MAF failure that returns the machine to the speed poll. -/
theorem trapezoidAtTickZeroCounterexample :
    (obdRun [ObdEvent.linkUp (.success 80) 0, ObdEvent.linkUp .failure 10,
        ObdEvent.linkUp (.success 100) 3600000]).global_totalDistanceTraveled = 0 ∧
    ((0 : ℚ) = 90 → False) := by
  constructor
  · norm_num [obdRun, obdStep, initialObdState, kphSuccessStep, mafSuccessStep, u32sub, u32]
  · norm_num

/-- Claim C1 (amended): for every successful speed poll whose
previous-sample timestamp is nonzero (timestamp 0 doubles as the
no-previous-sample sentinel, so a sample recorded at tick 0 is treated as
absent), the distance delta added to the cumulative distance equals the
trapezoidal average of the previous and current speed samples times the
elapsed time in hours when either sample is positive, and 0 otherwise. -/
theorem speedTrapezoidDelta (s : ObdState) (v : ℚ) (now : Nat)
    (hphase : s.currentState = ObdPhase.kph) (hprev : 0 < s.lastSpeedTime)
    (hle : s.lastSpeedTime ≤ now) (hnow : now < u32) :
    (obdStep s (.linkUp (.success v) now)).global_totalDistanceTraveled =
      s.global_totalDistanceTraveled +
        (if 0 < v ∨ 0 < s.prev_kph then
          ((v + s.prev_kph) / 2) * (((now - s.lastSpeedTime : Nat) : ℚ) / 3600000)
        else 0) := by
  rcases s with ⟨cs, mpgT, tk, pk, pm, lst, lft, gv, gm, gr, gl, gf, gd, gt, gfc, glu, gmd⟩
  replace hphase : cs = ObdPhase.kph := hphase
  subst hphase
  simp only [obdStep, kphSuccessStep] at *
  rw [if_pos hprev, if_pos hprev, u32sub_of_le _ _ hle hnow]

/-- Witness for speedTrapezoidDelta: previous speed 80 kph at tick 1000,
current speed 100 kph at tick 3601000 (one hour later) yields a distance
delta of exactly 90 km. -/
theorem speedTrapezoidDeltaWitness :
    0 < ({ initialObdState with lastSpeedTime := 1000, prev_kph := 80 } :
        ObdState).lastSpeedTime ∧
    (obdStep { initialObdState with lastSpeedTime := 1000, prev_kph := 80 }
        (.linkUp (.success 100) 3601000)).global_totalDistanceTraveled = 90 := by
  refine ⟨by decide, ?_⟩
  have h := speedTrapezoidDelta
    { initialObdState with lastSpeedTime := 1000, prev_kph := 80 }
    100 3601000 rfl (by decide) (by decide) (by decide)
  rw [h]
  norm_num [initialObdState]

/-- The acquisition state just before a simulated link loss: a previous
speed sample of 50 kph and a previous MAF sample of 20 g/s were both
recorded at tick 1000, and the cumulative totals stand at 10 km and
1 litre. -/
def preGapState : ObdState :=
  { initialObdState with
    lastSpeedTime := 1000
    prev_kph := 50
    lastFuelTime := 1000
    prev_maf := 20
    global_totalDistanceTraveled := 10
    global_totalFuelConsumed := 1 }

/-- Claim C2 fails on the code: the link-down handler leaves the
cumulative totals untouched (first two conjuncts, as the claim says), but
it clears only the vestigial lastSuccessfulMpgPollTime, which this state
machine never reads, and leaves the real delta caches lastSpeedTime and
prev_kph intact (middle conjuncts).  Consequently the first valid speed
sample after reconnection (50 kph at tick 3601000, one hour after the
pre-gap sample) adds a 50 km delta computed across the connectivity gap,
driving the total from 10 km to 60 km instead of contributing zero. -/
theorem reconnectGapComputesDelta :
    (obdStep preGapState ObdEvent.linkDown).global_totalDistanceTraveled = 10 ∧
    (obdStep preGapState ObdEvent.linkDown).global_totalFuelConsumed = 1 ∧
    (obdStep preGapState ObdEvent.linkDown).lastSpeedTime = 1000 ∧
    (obdStep preGapState ObdEvent.linkDown).prev_kph = 50 ∧
    (obdStep preGapState ObdEvent.linkDown).lastSuccessfulMpgPollTime = 0 ∧
    (obdStep (obdStep preGapState ObdEvent.linkDown)
        (.linkUp (.success 50) 3601000)).global_totalDistanceTraveled = 60 := by
  refine ⟨?_, ?_, ?_, ?_, ?_, ?_⟩ <;>
    norm_num [preGapState, initialObdState, obdStep, kphSuccessStep, u32sub, u32]

/-- Claim C4 (confirmed): for every successful MAF poll whose
previous-sample timestamp is nonzero (so it is not the first valid MAF
sample since reset; poll timestamps are positive ticks) and whose current
and cached readings are non-negative, the fuel delta added to the
cumulative fuel total equals the trapezoidal average of the previous and
current MAF samples converted with the fixed constant 0.33094 and
multiplied by the elapsed hours. -/
theorem mafTrapezoidDelta (s : ObdState) (v : ℚ) (now : Nat)
    (hphase : s.currentState = ObdPhase.maf) (hprev : 0 < s.lastFuelTime)
    (hv : 0 ≤ v) (hp : 0 ≤ s.prev_maf)
    (hle : s.lastFuelTime ≤ now) (hnow : now < u32) :
    (obdStep s (.linkUp (.success v) now)).global_totalFuelConsumed =
      s.global_totalFuelConsumed +
        (((v + s.prev_maf) / 2) * (33094 / 100000)) *
          (((now - s.lastFuelTime : Nat) : ℚ) / 3600000) := by
  rcases s with ⟨cs, mpgT, tk, pk, pm, lst, lft, gv, gm, gr, gl, gf, gd, gt, gfc, glu, gmd⟩
  replace hphase : cs = ObdPhase.maf := hphase
  subst hphase
  simp only [obdStep, mafSuccessStep] at *
  rw [if_pos hprev, u32sub_of_le _ _ hle hnow]
  by_cases hg : 0 < v ∨ 0 < pm
  · rw [if_pos hg]
  · rw [if_neg hg]
    push_neg at hg
    have hv0 : v = 0 := le_antisymm hg.1 hv
    have hp0 : pm = 0 := le_antisymm hg.2 hp
    rw [hv0, hp0]
    norm_num

/-- The acquisition state in the MAF phase with a 20 g/s sample cached at
tick 1000, used to witness the trapezoidal fuel delta. -/
def mafCacheState : ObdState :=
  { initialObdState with
    currentState := ObdPhase.maf
    lastFuelTime := 1000
    prev_maf := 20 }

/-- Witness for mafTrapezoidDelta: a constant MAF of 20 g/s (cached at
tick 1000, sampled again at tick 3601000, exactly one hour later) adds
exactly 20 * 0.33094 = 6.6188 litres (= 16547/2500). -/
theorem mafTrapezoidDeltaWitness :
    0 < mafCacheState.lastFuelTime ∧
    (obdStep mafCacheState
        (.linkUp (.success 20) 3601000)).global_totalFuelConsumed = 16547 / 2500 := by
  refine ⟨by decide, ?_⟩
  have h := mafTrapezoidDelta mafCacheState
    20 3601000 rfl (by decide) (by norm_num)
    (by norm_num [mafCacheState, initialObdState])
    (by decide) (by decide)
  rw [h]
  norm_num [mafCacheState, initialObdState]

/-- Claim C5 (confirmed): the first valid speed sample after a reset
(previous-sample timestamp still 0) contributes zero distance delta but
still records the sample value and its timestamp in the caches, and the
analogous statement holds for the first valid MAF sample and the fuel
total; once the caches hold a sample with a positive timestamp, the next
valid sample of the same channel produces the trapezoidal delta. -/
theorem firstSampleZeroDelta :
    (∀ (s : ObdState) (v : ℚ) (now : Nat), s.currentState = ObdPhase.kph →
      s.lastSpeedTime = 0 →
      (obdStep s (.linkUp (.success v) now)).global_totalDistanceTraveled =
          s.global_totalDistanceTraveled ∧
      (obdStep s (.linkUp (.success v) now)).prev_kph = v ∧
      (obdStep s (.linkUp (.success v) now)).lastSpeedTime = now) ∧
    (∀ (s : ObdState) (v : ℚ) (now : Nat), s.currentState = ObdPhase.maf →
      s.lastFuelTime = 0 →
      (obdStep s (.linkUp (.success v) now)).global_totalFuelConsumed =
          s.global_totalFuelConsumed ∧
      (obdStep s (.linkUp (.success v) now)).prev_maf = v ∧
      (obdStep s (.linkUp (.success v) now)).lastFuelTime = now) ∧
    (∀ (s : ObdState) (v : ℚ) (now : Nat), s.currentState = ObdPhase.kph →
      0 < s.lastSpeedTime → (0 < v ∨ 0 < s.prev_kph) →
      s.lastSpeedTime ≤ now → now < u32 →
      (obdStep s (.linkUp (.success v) now)).global_totalDistanceTraveled =
        s.global_totalDistanceTraveled +
          ((v + s.prev_kph) / 2) * (((now - s.lastSpeedTime : Nat) : ℚ) / 3600000)) ∧
    (∀ (s : ObdState) (v : ℚ) (now : Nat), s.currentState = ObdPhase.maf →
      0 < s.lastFuelTime → (0 < v ∨ 0 < s.prev_maf) →
      s.lastFuelTime ≤ now → now < u32 →
      (obdStep s (.linkUp (.success v) now)).global_totalFuelConsumed =
        s.global_totalFuelConsumed +
          (((v + s.prev_maf) / 2) * (33094 / 100000)) *
            (((now - s.lastFuelTime : Nat) : ℚ) / 3600000)) := by
  refine ⟨?_, ?_, ?_, ?_⟩
  · intro s v now hphase h0
    rcases s with ⟨cs, mpgT, tk, pk, pm, lst, lft, gv, gm, gr, gl, gf, gd, gt, gfc, glu, gmd⟩
    replace hphase : cs = ObdPhase.kph := hphase
    subst hphase
    replace h0 : lst = 0 := h0
    subst h0
    simp [obdStep, kphSuccessStep]
  · intro s v now hphase h0
    rcases s with ⟨cs, mpgT, tk, pk, pm, lst, lft, gv, gm, gr, gl, gf, gd, gt, gfc, glu, gmd⟩
    replace hphase : cs = ObdPhase.maf := hphase
    subst hphase
    replace h0 : lft = 0 := h0
    subst h0
    simp [obdStep, mafSuccessStep]
  · intro s v now hphase hprev hg hle hnow
    rcases s with ⟨cs, mpgT, tk, pk, pm, lst, lft, gv, gm, gr, gl, gf, gd, gt, gfc, glu, gmd⟩
    replace hphase : cs = ObdPhase.kph := hphase
    subst hphase
    simp only [obdStep, kphSuccessStep] at *
    rw [if_pos hprev, if_pos hprev, if_pos hg, u32sub_of_le _ _ hle hnow]
  · intro s v now hphase hprev hg hle hnow
    rcases s with ⟨cs, mpgT, tk, pk, pm, lst, lft, gv, gm, gr, gl, gf, gd, gt, gfc, glu, gmd⟩
    replace hphase : cs = ObdPhase.maf := hphase
    subst hphase
    simp only [obdStep, mafSuccessStep] at *
    rw [if_pos hprev, if_pos hg, u32sub_of_le _ _ hle hnow]

/-- Witness for firstSampleZeroDelta: from the initial state, a first
speed sample of 80 kph at tick 1000 leaves the distance total at 0 and
stores the sample and its timestamp in the caches. -/
theorem firstSampleZeroDeltaWitness :
    initialObdState.lastSpeedTime = 0 ∧
    (obdStep initialObdState (.linkUp (.success 80) 1000)).global_totalDistanceTraveled = 0 ∧
    (obdStep initialObdState (.linkUp (.success 80) 1000)).prev_kph = 80 ∧
    (obdStep initialObdState (.linkUp (.success 80) 1000)).lastSpeedTime = 1000 := by
  have h := firstSampleZeroDelta.1 initialObdState 80 1000 rfl rfl
  exact ⟨rfl, h.1.trans rfl, h.2.1, h.2.2⟩

/-- Claim C6 (confirmed): the transition function treats the two primary
channels asymmetrically on hard failure: a hard failure of the speed
query leaves the machine (in fact the whole state) in the speed-poll
phase so the speed query is retried, a hard failure of the MAF query
unconditionally moves the phase to the speed poll, and a pending result
leaves the entire state unchanged in every phase. -/
theorem primaryFailureAsymmetry (s : ObdState) (now : Nat) :
    (s.currentState = ObdPhase.kph →
      obdStep s (.linkUp .failure now) = s) ∧
    (s.currentState = ObdPhase.maf →
      obdStep s (.linkUp .failure now) = { s with currentState := ObdPhase.kph }) ∧
    obdStep s (.linkUp .pending now) = s := by
  rcases s with ⟨cs, mpgT, tk, pk, pm, lst, lft, gv, gm, gr, gl, gf, gd, gt, gfc, glu, gmd⟩
  refine ⟨?_, ?_, ?_⟩
  · intro h
    replace h : cs = ObdPhase.kph := h
    subst h
    rfl
  · intro h
    replace h : cs = ObdPhase.maf := h
    subst h
    rfl
  · cases cs <;> rfl

/-- Witness for primaryFailureAsymmetry: at the initial state (speed-poll
phase) a hard failure changes nothing and a pending result changes
nothing. -/
theorem primaryFailureAsymmetryWitness :
    obdStep initialObdState (.linkUp .failure 5) = initialObdState ∧
    obdStep initialObdState (.linkUp .pending 5) = initialObdState := by
  exact ⟨(primaryFailureAsymmetry initialObdState 5).1 rfl,
    (primaryFailureAsymmetry initialObdState 5).2.2⟩

/-- Claim C7 (confirmed): the link-down handling step sets the published
speed reading to the invalid sentinel -1 and changes no other published
field: the cumulative distance, cumulative fuel, moving-time counter,
MAF, rpm, engine-load and fuel-level readings, the last-update timestamp
and the mode selector all remain exactly as they were. -/
theorem linkDownFrame (s : ObdState) :
    (obdStep s ObdEvent.linkDown).global_vss_kph = -1 ∧
    (obdStep s ObdEvent.linkDown).global_totalDistanceTraveled =
      s.global_totalDistanceTraveled ∧
    (obdStep s ObdEvent.linkDown).global_totalFuelConsumed =
      s.global_totalFuelConsumed ∧
    (obdStep s ObdEvent.linkDown).global_totalDistanceTraveledTimer =
      s.global_totalDistanceTraveledTimer ∧
    (obdStep s ObdEvent.linkDown).global_maf = s.global_maf ∧
    (obdStep s ObdEvent.linkDown).global_rpm = s.global_rpm ∧
    (obdStep s ObdEvent.linkDown).global_load = s.global_load ∧
    (obdStep s ObdEvent.linkDown).global_fuel = s.global_fuel ∧
    (obdStep s ObdEvent.linkDown).global_lastDataUpdate = s.global_lastDataUpdate ∧
    (obdStep s ObdEvent.linkDown).global_mode = s.global_mode := by
  rcases s with ⟨cs, mpgT, tk, pk, pm, lst, lft, gv, gm, gr, gl, gf, gd, gt, gfc, glu, gmd⟩
  exact ⟨rfl, rfl, rfl, rfl, rfl, rfl, rfl, rfl, rfl, rfl⟩

/-- Claim C8 (confirmed): every successful parameter poll, in whichever
polling phase it occurs (the diagnostic phase issues no query), writes
the current clock tick into the last-update timestamp in the same
publish, so after any step with a successful poll the timestamp equals
the poll time of that step. -/
theorem anySuccessUpdatesTimestamp (s : ObdState) (v : ℚ) (now : Nat)
    (h : s.currentState ≠ ObdPhase.dtc) :
    (obdStep s (.linkUp (.success v) now)).global_lastDataUpdate = now := by
  rcases s with ⟨cs, mpgT, tk, pk, pm, lst, lft, gv, gm, gr, gl, gf, gd, gt, gfc, glu, gmd⟩
  cases cs
  case dtc => exact absurd rfl h
  all_goals simp [obdStep, kphSuccessStep, mafSuccessStep]

/-- Witness for anySuccessUpdatesTimestamp: a successful speed poll at
tick 777 from the initial state stamps the timestamp 777. -/
theorem anySuccessUpdatesTimestampWitness :
    initialObdState.currentState ≠ ObdPhase.dtc ∧
    (obdStep initialObdState (.linkUp (.success 42) 777)).global_lastDataUpdate = 777 := by
  exact ⟨by decide, anySuccessUpdatesTimestamp initialObdState 42 777 (by decide)⟩

/-- Claim C9 (confirmed): the instantaneous efficiency is computed only
when speed > 0 and MAF > 0 (otherwise it stays 0), it never exceeds the
configured maximum display value (99 in the state-machine variant, which
rounds before clamping; 90 in the simulation variant, which clamps the
raw formula), and whenever the computed value exceeds the maximum it is
displayed as exactly that maximum. -/
theorem instEconClampGuard (kph maf : ℚ) :
    (¬(0 < kph ∧ 0 < maf) → instMpg99 kph maf = 0 ∧ instMpg90 kph maf = 0) ∧
    instMpg99 kph maf ≤ 99 ∧
    instMpg90 kph maf ≤ 90 ∧
    (0 < kph → 0 < maf → 99 < ((round (instMpgFormula kph maf) : ℤ) : ℚ) →
      instMpg99 kph maf = 99) ∧
    (0 < kph → 0 < maf → 90 < instMpgFormula kph maf →
      instMpg90 kph maf = 90) := by
  refine ⟨?_, ?_, ?_, ?_, ?_⟩
  · intro h
    unfold instMpg99 instMpg90
    rw [if_neg h, if_neg h]
    exact ⟨rfl, rfl⟩
  · simp only [instMpg99]
    split_ifs with h1 h2
    · exact le_rfl
    · exact le_of_not_lt h2
    · norm_num
  · simp only [instMpg90]
    split_ifs with h1 h2
    · exact le_rfl
    · exact le_of_not_lt h2
    · norm_num
  · intro hk hm hr
    simp only [instMpg99]
    rw [if_pos ⟨hk, hm⟩, if_pos hr]
  · intro hk hm hr
    simp only [instMpg90]
    rw [if_pos ⟨hk, hm⟩, if_pos hr]

/-- The speed input that makes the efficiency formula evaluate to exactly
150 when the MAF input is 1 g/s. -/
def kph150 : ℚ := 150 * 36 * 100000000000 / (147 * 617 * 454 * 621371)

/-- Witness for instEconClampGuard: at speed kph150 and MAF 1 the formula
computes exactly 150, and both variants display their configured maximum
(99 and 90 respectively), never the unclamped 150. -/
theorem instEconClampGuardWitness :
    instMpgFormula kph150 1 = 150 ∧
    instMpg99 kph150 1 = 99 ∧
    instMpg90 kph150 1 = 90 := by
  have hf : instMpgFormula kph150 1 = 150 := by
    norm_num [instMpgFormula, kph150]
  have hk : (0 : ℚ) < kph150 := by norm_num [kph150]
  refine ⟨hf, ?_, ?_⟩
  · exact (instEconClampGuard kph150 1).2.2.2.1 hk (by norm_num)
      (by rw [hf]; norm_num [round_eq])
  · exact (instEconClampGuard kph150 1).2.2.2.2 hk (by norm_num)
      (by rw [hf]; norm_num)

/-- Claim C10 (confirmed): moving time is accumulated only when the
current speed sample is strictly positive; in a successful speed poll
with current speed 0 and a cached positive previous speed, the
trapezoidal distance delta is still added (the cumulative distance
strictly increases when time has elapsed) while the moving-time counter
is left unchanged. -/
theorem movingTimeRequiresPositiveSpeed (s : ObdState) (v : ℚ) (now : Nat)
    (hphase : s.currentState = ObdPhase.kph) :
    (¬ 0 < v →
      (obdStep s (.linkUp (.success v) now)).global_totalDistanceTraveledTimer =
        s.global_totalDistanceTraveledTimer) ∧
    (v = 0 → 0 < s.prev_kph → 0 < s.lastSpeedTime → s.lastSpeedTime < now →
      now < u32 →
      s.global_totalDistanceTraveled <
        (obdStep s (.linkUp (.success v) now)).global_totalDistanceTraveled ∧
      (obdStep s (.linkUp (.success v) now)).global_totalDistanceTraveledTimer =
        s.global_totalDistanceTraveledTimer) := by
  rcases s with ⟨cs, mpgT, tk, pk, pm, lst, lft, gv, gm, gr, gl, gf, gd, gt, gfc, glu, gmd⟩
  replace hphase : cs = ObdPhase.kph := hphase
  subst hphase
  constructor
  · intro hv
    simp only [obdStep, kphSuccessStep]
    rw [if_neg hv]
  · intro hv0 hpk hlst hlt hnow
    subst hv0
    simp only [obdStep, kphSuccessStep] at *
    constructor
    · rw [if_pos hlst, if_pos hlst, if_pos (Or.inr hpk),
        u32sub_of_le _ _ (le_of_lt hlt) hnow]
      apply lt_add_of_pos_right
      apply mul_pos
      · linarith
      · apply div_pos
        · exact_mod_cast Nat.sub_pos_of_lt hlt
        · norm_num
    · rw [if_neg (lt_irrefl (0 : ℚ))]

/-- The acquisition state used to witness movingTimeRequiresPositiveSpeed:
a cached 50 kph sample at tick 1000 with 10 km accumulated. -/
def decelState : ObdState :=
  { initialObdState with
    prev_kph := 50
    lastSpeedTime := 1000
    global_totalDistanceTraveled := 10 }

/-- Witness for movingTimeRequiresPositiveSpeed: polling speed 0 at tick
3601000 on decelState strictly increases the distance total past 10 km
while leaving the moving-time counter at 0. -/
theorem movingTimeRequiresPositiveSpeedWitness :
    (10 : ℚ) <
      (obdStep decelState (.linkUp (.success 0) 3601000)).global_totalDistanceTraveled ∧
    (obdStep decelState
      (.linkUp (.success 0) 3601000)).global_totalDistanceTraveledTimer = 0 := by
  have h := (movingTimeRequiresPositiveSpeed decelState 0 3601000 rfl).2 rfl
    (by norm_num [decelState, initialObdState]) (by decide) (by decide) (by decide)
  exact ⟨h.1, h.2.trans rfl⟩

end OBDII
